import Mathlib

/-!
Shallow embedding of the MoniBags SDK client (`src/monibags/sdk.py`,
`src/monibags/exceptions.py`).

The SDK is a thin HTTP client.  We embed it by making the transport layer a
parameter: each HTTP call is a function from the request's username to a
`TransportOutcome` (a response, a timeout exception, or another request
exception).  Python dictionaries are embedded as association lists of
`String × PyVal`; Python exceptions raised by the SDK become the `SdkError`
sum type mirroring `exceptions.py`; functions that raise are `Except`-valued;
file writes performed by `export_results` are returned as a value instead of
executed, so "no write happened" is visible as an `Except.error` result.
-/

/-- Python values, as far as the SDK inspects them: `None`, booleans,
integers, strings, lists and string-keyed dictionaries. -/
inductive PyVal where
  | none : PyVal
  | bool : Bool → PyVal
  | int : Int → PyVal
  | str : String → PyVal
  | list : List PyVal → PyVal
  | dict : List (String × PyVal) → PyVal
deriving Repr

/-- Python truthiness, as used by `if result.get('success'):` etc. -/
def truthy : PyVal → Bool
  | PyVal.none => false
  | PyVal.bool b => b
  | PyVal.int n => n != 0
  | PyVal.str s => s != ""
  | PyVal.list xs => !xs.isEmpty
  | PyVal.dict kvs => !kvs.isEmpty

/-- Python `str()` of a value, as used in f-strings and CSV cells.  The SDK
never renders a container through `str()` on the paths the claims touch, so
containers get a placeholder rendering. -/
def pyStr : PyVal → String
  | PyVal.none => "None"
  | PyVal.bool b => if b then "True" else "False"
  | PyVal.int n => toString n
  | PyVal.str s => s
  | PyVal.list _ => "<list>"
  | PyVal.dict _ => "<dict>"

/-- Python `int > 0` test on the value of `data.get('total_changes', 0)`.
`bool` participates because Python `bool` is an `int`. -/
def pyGtZero : PyVal → Bool
  | PyVal.int n => 0 < n
  | PyVal.bool b => b
  | _ => false

/-- Elements of a Python list value; iteration over a non-list never happens
on the claims' paths. -/
def PyVal.items : PyVal → List PyVal
  | PyVal.list xs => xs
  | _ => []

/-- `d.get(k, dflt)` on an association list embedding a Python dict. -/
def dget (kvs : List (String × PyVal)) (k : String) (dflt : PyVal) : PyVal :=
  match kvs.find? (fun p => p.1 == k) with
  | some p => p.2
  | Option.none => dflt

/-- `d.get(k, dflt)` on a `PyVal` that the source uses as a dict
(`result.get('data', {})` and the accesses on it). -/
def PyVal.getd : PyVal → String → PyVal → PyVal
  | PyVal.dict kvs, k, dflt => dget kvs k dflt
  | _, _, dflt => dflt

/-- `d[k]` lookup returning an option (used only to state theorems). -/
def PyVal.get? : PyVal → String → Option PyVal
  | PyVal.dict kvs, k => (kvs.find? (fun p => p.1 == k)).map (fun p => p.2)
  | _, _ => Option.none

/-- Python dict assignment `d[k] = v`: replace the binding of `k` in place
if present, else append it. -/
def dictSet (kvs : List (String × PyVal)) (k : String) (v : PyVal) :
    List (String × PyVal) :=
  if kvs.any (fun p => p.1 == k) then
    kvs.map (fun p => if p.1 == k then (k, v) else p)
  else
    kvs ++ [(k, v)]

/-- `username.lstrip('@')`: remove every leading `'@'` character. -/
def lstripAmp (s : String) : String :=
  String.mk (s.data.dropWhile (fun c => c = '@'))

/-- Boolean infix test on character lists (`pat` occurs in the list). -/
def charsInfix (pat : List Char) : List Char → Bool
  | [] => pat.isEmpty
  | c :: rest => List.isPrefixOf pat (c :: rest) || charsInfix pat rest

/-- `mentions s pat`: the string `pat` occurs inside `s` (Python `pat in s`). -/
def mentions (s pat : String) : Bool :=
  charsInfix pat.data s.data

/-- The exception taxonomy of `exceptions.py`: `RateLimitError` and
`APIError` derive from the base `MoniBagsException`; each carries the message
that `str(e)` would show. -/
inductive SdkError where
  | RateLimitError : String → SdkError
  | APIError : String → SdkError
  | MoniBagsException : String → SdkError
deriving Repr

/-- `str(e)` of an SDK exception: its message. -/
def SdkError.msg : SdkError → String
  | SdkError.RateLimitError m => m
  | SdkError.APIError m => m
  | SdkError.MoniBagsException m => m

/-- An HTTP response as the SDK reads it: `status_code`, `text`, and the
value `response.json()` parses to. -/
structure HttpResponse where
  status : Nat
  text : String
  jsonBody : PyVal
deriving Repr

/-- Outcome of one transport-level request attempt: a response, a
`requests.exceptions.Timeout`, or another `requests.exceptions.RequestException`;
the exception constructors carry `str(e)` of the underlying exception. -/
inductive TransportOutcome where
  | timeout : String → TransportOutcome
  | requestError : String → TransportOutcome
  | response : HttpResponse → TransportOutcome
deriving Repr

/-- `MoniBagsSDK.check_username_history(username, timeout)`.  The transport
is the parameter `outcome`, applied to the username actually sent in the
request body.  Mirrors `sdk.py` lines 30-67: strip leading `@`, then 429 →
`RateLimitError`, 200 → parsed body, other status → `APIError` with status
and body text; `Timeout` → base exception naming the timeout; other request
exceptions → base exception wrapping the cause. -/
def check_username_history (outcome : String → TransportOutcome)
    (username : String) (timeout : Nat) : Except SdkError PyVal :=
  match outcome (lstripAmp username) with
  | TransportOutcome.response response =>
    if response.status = 429 then
      Except.error (SdkError.RateLimitError
        "Rate limit exceeded. Please wait before making another request.")
    else if response.status = 200 then
      Except.ok response.jsonBody
    else
      Except.error (SdkError.APIError
        ("API returned status code " ++ toString response.status ++ ": "
          ++ response.text))
  | TransportOutcome.timeout _ =>
    Except.error (SdkError.MoniBagsException
      ("Request timed out after " ++ toString timeout ++ " seconds"))
  | TransportOutcome.requestError m =>
    Except.error (SdkError.MoniBagsException ("Request failed: " ++ m))

/-- `MoniBagsSDK.analyze_profile(username, timeout)`, `sdk.py` lines 69-101.
Same shape as `check_username_history` except: the `APIError` message has no
body text, and there is no `Timeout`-specific handler — a timeout falls into
the generic `RequestException` branch. -/
def analyze_profile (outcome : String → TransportOutcome)
    (username : String) (timeout : Nat) : Except SdkError PyVal :=
  match outcome (lstripAmp username) with
  | TransportOutcome.response response =>
    if response.status = 429 then
      Except.error (SdkError.RateLimitError "Rate limit exceeded")
    else if response.status = 200 then
      Except.ok response.jsonBody
    else
      Except.error (SdkError.APIError
        ("API returned status code " ++ toString response.status))
  | TransportOutcome.timeout m =>
    Except.error (SdkError.MoniBagsException ("Request failed: " ++ m))
  | TransportOutcome.requestError m =>
    Except.error (SdkError.MoniBagsException ("Request failed: " ++ m))

/-- One iteration of the `batch_check` loop body (`sdk.py` lines 125-136):
on success tag the result dict with the requested username and the capture
timestamp; on any exception build the failure record in source order. -/
def batchItem (check : String → Except SdkError (List (String × PyVal)))
    (stamp : String) (u : String) : PyVal :=
  match check u with
  | Except.ok kvs =>
    PyVal.dict (dictSet (dictSet kvs "username" (PyVal.str u))
      "timestamp" (PyVal.str stamp))
  | Except.error e =>
    PyVal.dict [("username", PyVal.str u), ("success", PyVal.bool false),
      ("error", PyVal.str e.msg), ("timestamp", PyVal.str stamp)]

/-- The `batch_check` loop from index `i` (`for i, username in enumerate`),
returning the accumulated results together with the number of times
`time.sleep(delay)` runs (`if i < total - 1`).  `ts i` is the
`datetime.now().isoformat()` string captured at iteration `i`. -/
def batchStep (check : String → Except SdkError (List (String × PyVal)))
    (ts : Nat → String) (total : Nat) : Nat → List String → List PyVal × Nat
  | _, [] => ([], 0)
  | i, u :: rest =>
    let r := batchItem check (ts i) u
    let tl := batchStep check ts total (i + 1) rest
    (r :: tl.1, (if i < total - 1 then 1 else 0) + tl.2)

/-- `MoniBagsSDK.batch_check(usernames, delay)`, `sdk.py` lines 103-142.
The per-item call `self.check_username_history(username)` is the parameter
`check` (its annotated return type is `Dict`); the progress callback / print
is pure I/O and affects no result, so it is not modelled. -/
def batch_check (check : String → Except SdkError (List (String × PyVal)))
    (ts : Nat → String) (usernames : List String) : List PyVal × Nat :=
  batchStep check ts usernames.length 0 usernames

/-- `MoniBagsSDK.get_rate_limit_status()`, `sdk.py` lines 144-163.  The
outcome of the guarded block up to reading the response is the parameter:
`Except.error m` stands for any exception (the bare `except Exception`)
with `str(e) = m`. -/
def get_rate_limit_status (outcome : Except String HttpResponse) : PyVal :=
  match outcome with
  | Except.error e => PyVal.dict [("error", PyVal.str e)]
  | Except.ok response =>
    if response.status = 200 then
      response.jsonBody
    else
      PyVal.dict [("error", PyVal.str "Failed to get rate limit status")]

/-- The `"="*50` separator line of `format_result`. -/
def eqBar : String :=
  String.mk (List.replicate 50 '=')

/-- `MoniBagsSDK.format_result(result)`, `sdk.py` lines 165-200: build the
output lines and join them with newlines. -/
def format_result (result : List (String × PyVal)) : String :=
  let mid : List String :=
    if truthy (dget result "success" PyVal.none) then
      let data := dget result "data" (PyVal.dict [])
      let base := ["Username: @" ++
          pyStr (PyVal.getd data "current_username" (PyVal.str "unknown")),
        "Status: " ++ (if truthy (PyVal.getd data "is_clean" PyVal.none) then
          "CLEAN ✅" else "CHANGES DETECTED ⚠️")]
      let changes :=
        if pyGtZero (PyVal.getd data "total_changes" (PyVal.int 0)) then
          ["Total Changes: " ++
              pyStr (PyVal.getd data "total_changes" PyVal.none),
            "\nPrevious Usernames:"] ++
            (PyVal.items (PyVal.getd data "history" (PyVal.list []))).map
              (fun item => "  • " ++ pyStr item)
        else []
      let insights := PyVal.getd data "insights" (PyVal.list [])
      let insLines :=
        if truthy insights then
          "\nInsights:" :: (PyVal.items insights).map
            (fun insight => "  " ++ pyStr insight)
        else []
      base ++ changes ++ insLines
    else
      ["Error: " ++ pyStr (dget result "error" (PyVal.str "Unknown error"))] ++
        (if truthy (dget result "message" PyVal.none) then
          ["Message: " ++ pyStr (dget result "message" PyVal.none)]
        else [])
  String.intercalate "\n" ([eqBar] ++ mid ++ [eqBar])

/-- What `export_results` writes: either the JSON serialization of every
result, or CSV lines (header row included when present). -/
inductive ExportContent where
  | json : List (List (String × PyVal)) → ExportContent
  | csv : List (List String) → ExportContent
deriving Repr

/-- A performed file write. -/
structure ExportFile where
  filename : String
  content : ExportContent
deriving Repr

/-- The CSV `fieldnames` of `export_results`. -/
def csvFieldnames : List String :=
  ["username", "is_clean", "total_changes", "history", "timestamp"]

/-- One CSV row written for a successful result (`sdk.py` lines 224-230). -/
def csvRowOf (result : List (String × PyVal)) : List String :=
  let data := dget result "data" (PyVal.dict [])
  [pyStr (dget result "username" (PyVal.str "")),
    pyStr (PyVal.getd data "is_clean" (PyVal.str "")),
    pyStr (PyVal.getd data "total_changes" (PyVal.int 0)),
    String.intercalate ", "
      ((PyVal.items (PyVal.getd data "history" (PyVal.list []))).map pyStr),
    pyStr (dget result "timestamp" (PyVal.str ""))]

/-- The CSV lines produced by the `elif format == 'csv'` branch: nothing at
all for an empty results list (`if results:`), else the header followed by
one row per result whose `success` is truthy. -/
def csvLines (results : List (List (String × PyVal))) : List (List String) :=
  if results.isEmpty then []
  else
    csvFieldnames :: results.filterMap (fun r =>
      if truthy (dget r "success" PyVal.none) then some (csvRowOf r)
      else Option.none)

/-- `MoniBagsSDK.export_results(results, filename, format)`, `sdk.py` lines
202-232.  The write it would perform is returned as a value; the
unsupported-format `ValueError` is the `Except.error`, raised before any
file is opened, so no `ExportFile` exists in that case. -/
def export_results (results : List (List (String × PyVal)))
    (filename : String) (format : String) : Except String ExportFile :=
  if format = "json" then
    Except.ok ⟨filename, ExportContent.json results⟩
  else if format = "csv" then
    Except.ok ⟨filename, ExportContent.csv (csvLines results)⟩
  else
    Except.error ("Unsupported format: " ++ format)

/-- A transport that always answers HTTP 429. -/
def out429 : String → TransportOutcome :=
  fun _ => TransportOutcome.response ⟨429, "", PyVal.dict []⟩

/-- A transport that always answers HTTP 500 with body `"boom"`. -/
def out500 : String → TransportOutcome :=
  fun _ => TransportOutcome.response ⟨500, "boom", PyVal.dict []⟩

/-- A transport that always raises `requests.exceptions.Timeout` whose
`str(e)` is `"timed out"`. -/
def outTimeout : String → TransportOutcome :=
  fun _ => TransportOutcome.timeout "timed out"

/-- A transport that answers 200 and echoes the username it received as the
parsed response body, so the sent username is observable. -/
def echoOutcome : String → TransportOutcome :=
  fun u => TransportOutcome.response ⟨200, "", PyVal.str u⟩

/-- A per-item check that always raises `APIError("boom")`. -/
def demoFailCheck : String → Except SdkError (List (String × PyVal)) :=
  fun _ => Except.error (SdkError.APIError "boom")

/-- A per-item check that always succeeds with an empty dict. -/
def demoOkCheck : String → Except SdkError (List (String × PyVal)) :=
  fun _ => Except.ok []

/-- A deterministic timestamp source. -/
def demoTs : Nat → String :=
  fun i => "t" ++ toString i

theorem charsInfix_append (pat pre post : List Char) :
    charsInfix pat (pre ++ (pat ++ post)) = true := by
  induction pre with
  | nil =>
    cases pat with
    | nil =>
      cases post with
      | nil => rfl
      | cons c rest => simp [charsInfix]
    | cons p pr =>
      have hpre : List.isPrefixOf (p :: pr) ((p :: pr) ++ post) = true :=
        List.isPrefixOf_iff_prefix.mpr (List.prefix_append _ _)
      simp only [List.nil_append, List.cons_append] at hpre ⊢
      simp [charsInfix, hpre]
  | cons c rest ih =>
    simp [charsInfix, ih]

theorem mentions_of_data (s pat : String) (pre post : List Char)
    (h : s.data = pre ++ (pat.data ++ post)) : mentions s pat = true := by
  unfold mentions
  rw [h]
  exact charsInfix_append pat.data pre post

theorem lstripAmp_idem (s : String) : lstripAmp (lstripAmp s) = lstripAmp s :=
  congrArg String.mk (List.dropWhile_idempotent _ _)

theorem replicate_dropWhile_at (l : List Char) :
    ∃ k, l = List.replicate k '@' ++ l.dropWhile (fun c => c = '@') := by
  induction l with
  | nil => exact ⟨0, rfl⟩
  | cons c rest ih =>
    by_cases hc : c = '@'
    · obtain ⟨k, hk⟩ := ih
      subst hc
      refine ⟨k + 1, ?_⟩
      simp only [List.dropWhile_cons, decide_True, if_true, List.replicate_succ,
        List.cons_append]
      exact congrArg (List.cons '@') hk
    · exact ⟨0, by simp [List.dropWhile_cons, hc]⟩

theorem head?_dropWhile_at (l : List Char) :
    (l.dropWhile (fun c => c = '@')).head? ≠ some '@' := by
  induction l with
  | nil => simp
  | cons c rest ih =>
    by_cases hc : c = '@'
    · simpa [List.dropWhile_cons, hc] using ih
    · simp [List.dropWhile_cons, hc]

theorem lstripAmp_eq_of_no_at (s : String) (h : s.data.head? ≠ some '@') :
    lstripAmp s = s := by
  cases s with
  | mk l =>
    cases l with
    | nil => rfl
    | cons c rest =>
      have hc : ¬(c = '@') := by simpa using h
      simp [lstripAmp, List.dropWhile_cons, hc]

theorem find?_map_set (k : String) (v : PyVal) :
    ∀ kvs : List (String × PyVal), kvs.any (fun p => p.1 == k) = true →
      ((kvs.map (fun p => if p.1 == k then (k, v) else p)).find?
        (fun p => p.1 == k)) = some (k, v) := by
  intro kvs
  induction kvs with
  | nil => intro h; cases h
  | cons a rest ih =>
    intro h
    cases ha : (a.1 == k) with
    | true =>
      simp only [List.map_cons, ha, if_true]
      exact List.find?_cons_of_pos _ (by simp)
    | false =>
      have hrest : rest.any (fun p => p.1 == k) = true := by
        simpa [List.any_cons, ha] using h
      simp only [List.map_cons, ha, Bool.false_eq_true, if_false]
      rw [List.find?_cons_of_neg _ (by simp [ha])]
      exact ih hrest

theorem find?_dictSet_self (kvs : List (String × PyVal)) (k : String)
    (v : PyVal) :
    (dictSet kvs k v).find? (fun p => p.1 == k) = some (k, v) := by
  unfold dictSet
  cases h : kvs.any (fun p => p.1 == k) with
  | true =>
    simp only [h, if_true]
    exact find?_map_set k v kvs h
  | false =>
    simp only [h, Bool.false_eq_true, if_false]
    rw [List.find?_append]
    have hnone : kvs.find? (fun p => p.1 == k) = Option.none := by
      rw [List.find?_eq_none]
      intro x hx hpx
      have : kvs.any (fun p => p.1 == k) = true := by
        exact List.any_of_mem hx hpx
      rw [h] at this
      cases this
    rw [hnone]
    have hone : List.find? (fun p => p.1 == k) [(k, v)] = some (k, v) :=
      List.find?_cons_of_pos _ (by simp)
    rw [hone]
    rfl

theorem find?_map_set_other (k k' : String) (v : PyVal)
    (hkk : (k' == k) = false) :
    ∀ kvs : List (String × PyVal),
      ((kvs.map (fun p => if p.1 == k' then (k', v) else p)).find?
        (fun p => p.1 == k)) = kvs.find? (fun p => p.1 == k) := by
  intro kvs
  induction kvs with
  | nil => rfl
  | cons a rest ih =>
    cases ha : (a.1 == k') with
    | true =>
      have ha1 : a.1 = k' := by simpa using ha
      have hak : (a.1 == k) = false := by
        rw [ha1]; exact hkk
      simp only [List.map_cons, ha, if_true]
      rw [List.find?_cons_of_neg _ (by simp [hkk]),
        List.find?_cons_of_neg _ (by simp [hak])]
      exact ih
    | false =>
      simp only [List.map_cons, ha, Bool.false_eq_true, if_false]
      cases hak : (a.1 == k) with
      | true =>
        rw [List.find?_cons_of_pos _ (by simp [hak]),
          List.find?_cons_of_pos _ (by simp [hak])]
      | false =>
        rw [List.find?_cons_of_neg _ (by simp [hak]),
          List.find?_cons_of_neg _ (by simp [hak])]
        exact ih

theorem find?_dictSet_other (kvs : List (String × PyVal)) (k k' : String)
    (v : PyVal) (hkk : (k' == k) = false) :
    (dictSet kvs k' v).find? (fun p => p.1 == k) =
      kvs.find? (fun p => p.1 == k) := by
  unfold dictSet
  cases h : kvs.any (fun p => p.1 == k') with
  | true =>
    simp only [h, if_true]
    exact find?_map_set_other k k' v hkk kvs
  | false =>
    simp only [h, Bool.false_eq_true, if_false]
    rw [List.find?_append]
    have : List.find? (fun p => p.1 == k) [(k', v)] = Option.none := by
      rw [List.find?_cons_of_neg _ (by simp [hkk])]
      rfl
    rw [this]
    cases List.find? (fun p => p.1 == k) kvs <;> rfl

theorem get?_batchItem_username
    (check : String → Except SdkError (List (String × PyVal)))
    (stamp u : String) :
    PyVal.get? (batchItem check stamp u) "username" = some (PyVal.str u) := by
  unfold batchItem
  cases hc : check u with
  | ok kvs =>
    simp only [PyVal.get?]
    rw [find?_dictSet_other _ _ _ _ (by decide), find?_dictSet_self]
    rfl
  | error e => rfl

theorem batchStep_length (check : String → Except SdkError (List (String × PyVal)))
    (ts : Nat → String) (total : Nat) :
    ∀ (us : List String) (i : Nat),
      ((batchStep check ts total i us).1).length = us.length := by
  intro us
  induction us with
  | nil => intro i; rfl
  | cons u rest ih => intro i; simp [batchStep, ih]

theorem batch_check_length (check : String → Except SdkError (List (String × PyVal)))
    (ts : Nat → String) (us : List String) :
    ((batch_check check ts us).1).length = us.length :=
  batchStep_length check ts us.length us 0

theorem batchStep_map_username (check : String → Except SdkError (List (String × PyVal)))
    (ts : Nat → String) (total : Nat) :
    ∀ (us : List String) (i : Nat),
      (batchStep check ts total i us).1.map (fun r => PyVal.get? r "username") =
        us.map (fun u => some (PyVal.str u)) := by
  intro us
  induction us with
  | nil => intro i; rfl
  | cons u rest ih => intro i; simp [batchStep, ih, get?_batchItem_username]

theorem batchStep_sleeps (check : String → Except SdkError (List (String × PyVal)))
    (ts : Nat → String) (total : Nat) :
    ∀ (us : List String) (i : Nat),
      (batchStep check ts total i us).2 = min us.length (total - 1 - i) := by
  intro us
  induction us with
  | nil => intro i; simp [batchStep]
  | cons u rest ih =>
    intro i
    simp only [batchStep, ih, List.length_cons]
    split <;> omega

theorem batchStep_get? (check : String → Except SdkError (List (String × PyVal)))
    (ts : Nat → String) (total : Nat) :
    ∀ (us : List String) (i j : Nat) (h : j < us.length),
      ((batchStep check ts total i us).1)[j]? =
        some (batchItem check (ts (i + j)) (us.get ⟨j, h⟩)) := by
  intro us
  induction us with
  | nil =>
    intro i j h
    exact absurd h (by simp)
  | cons u rest ih =>
    intro i j h
    cases j with
    | zero =>
      simp only [batchStep, List.getElem?_cons_zero, Nat.add_zero,
        List.get_cons_zero]
      rfl
    | succ j' =>
      have h' : j' < rest.length := by simpa using h
      have hih := ih (i + 1) j' h'
      simp only [batchStep, List.getElem?_cons_succ, List.get_cons_succ,
        Nat.add_succ, Nat.succ_add] at hih ⊢
      exact hih

theorem filterMap_if_eq_filter_map {α β : Type} (p : α → Bool) (f : α → β)
    (l : List α) :
    l.filterMap (fun a => if p a then some (f a) else Option.none) =
      (l.filter p).map f := by
  induction l with
  | nil => rfl
  | cons a rest ih =>
    cases hp : p a with
    | true => simp [List.filterMap_cons, List.filter_cons, hp, ih]
    | false => simp [List.filterMap_cons, List.filter_cons, hp, ih]

/-- C1: for every list of N usernames, `batch_check` returns exactly N
results, one per username in input order (the i-th result's `username` field
is the i-th input), and runs the inter-request sleep exactly N-1 times —
in particular zero times when N is 0 or 1. -/
theorem C1_batch_check_shape
    (check : String → Except SdkError (List (String × PyVal)))
    (ts : Nat → String) (usernames : List String) :
    ((batch_check check ts usernames).1).length = usernames.length ∧
    (batch_check check ts usernames).1.map (fun r => PyVal.get? r "username") =
      usernames.map (fun u => some (PyVal.str u)) ∧
    (batch_check check ts usernames).2 = usernames.length - 1 ∧
    (usernames.length ≤ 1 → (batch_check check ts usernames).2 = 0) := by
  have hs := batchStep_sleeps check ts usernames.length usernames 0
  refine ⟨batch_check_length check ts usernames,
    batchStep_map_username check ts usernames.length usernames 0, ?_, ?_⟩
  · show (batchStep check ts usernames.length 0 usernames).2 = _
    rw [hs]
    omega
  · intro hle
    show (batchStep check ts usernames.length 0 usernames).2 = 0
    rw [hs]
    omega

/-- Witness for C1 at a concrete one-element batch: the sleep runs 0 times. -/
theorem C1_witness : (batch_check demoOkCheck demoTs ["alice"]).2 = 0 :=
  (C1_batch_check_shape demoOkCheck demoTs ["alice"]).2.2.2 (by decide)

/-- C2: if the per-item check raises any error at position j, the j-th batch
result is the failure record `{username, success=False, error=str(e),
timestamp}`, and the batch still has one result per username (the loop never
aborts and `batch_check` propagates nothing — it is a total function). -/
theorem C2_batch_check_error_record
    (check : String → Except SdkError (List (String × PyVal)))
    (ts : Nat → String) (us : List String) (j : Nat) (e : SdkError)
    (h : j < us.length) (hc : check (us.get ⟨j, h⟩) = Except.error e) :
    ((batch_check check ts us).1)[j]? = some (PyVal.dict
      [("username", PyVal.str (us.get ⟨j, h⟩)),
       ("success", PyVal.bool false),
       ("error", PyVal.str e.msg),
       ("timestamp", PyVal.str (ts j))]) ∧
    ((batch_check check ts us).1).length = us.length := by
  refine ⟨?_, batch_check_length check ts us⟩
  have hg := batchStep_get? check ts us.length us 0 j h
  rw [Nat.zero_add] at hg
  show ((batchStep check ts us.length 0 us).1)[j]? = _
  rw [hg]
  unfold batchItem
  rw [hc]

/-- Witness for C2: a check that always raises `APIError("boom")` yields the
failure record for `"alice"` at position 0. -/
theorem C2_witness :
    ((batch_check demoFailCheck demoTs ["alice"]).1)[0]? = some (PyVal.dict
      [("username", PyVal.str "alice"),
       ("success", PyVal.bool false),
       ("error", PyVal.str "boom"),
       ("timestamp", PyVal.str "t0")]) :=
  (C2_batch_check_error_record demoFailCheck demoTs ["alice"] 0
    (SdkError.APIError "boom") (by decide) rfl).1

/-- C3: whenever the service answers HTTP 429, both `check_username_history`
and `analyze_profile` raise `RateLimitError` (each with its source message)
and never `APIError`. -/
theorem C3_status_429_rate_limit (outcome : String → TransportOutcome)
    (username : String) (t : Nat) (r : HttpResponse)
    (hout : outcome (lstripAmp username) = TransportOutcome.response r)
    (h429 : r.status = 429) :
    check_username_history outcome username t = Except.error
      (SdkError.RateLimitError
        "Rate limit exceeded. Please wait before making another request.") ∧
    analyze_profile outcome username t = Except.error
      (SdkError.RateLimitError "Rate limit exceeded") ∧
    (∀ m, check_username_history outcome username t ≠
      Except.error (SdkError.APIError m)) ∧
    (∀ m, analyze_profile outcome username t ≠
      Except.error (SdkError.APIError m)) := by
  have hc : check_username_history outcome username t = Except.error
      (SdkError.RateLimitError
        "Rate limit exceeded. Please wait before making another request.") := by
    unfold check_username_history
    rw [hout]
    simp [h429]
  have ha : analyze_profile outcome username t = Except.error
      (SdkError.RateLimitError "Rate limit exceeded") := by
    unfold analyze_profile
    rw [hout]
    simp [h429]
  refine ⟨hc, ha, ?_, ?_⟩
  · intro m hm
    rw [hc] at hm
    cases hm
  · intro m hm
    rw [ha] at hm
    cases hm

/-- Witness for C3 at a transport that always answers 429. -/
theorem C3_witness :
    check_username_history out429 "alice" 30 = Except.error
      (SdkError.RateLimitError
        "Rate limit exceeded. Please wait before making another request.") :=
  (C3_status_429_rate_limit out429 "alice" 30 ⟨429, "", PyVal.dict []⟩
    rfl rfl).1

/-- C4 counterexample: on a 500 response with body `"boom"`,
`analyze_profile` raises an `APIError` whose message carries the status code
but not the response body text — refuting the claim that both functions
include the body text. -/
theorem C4_counterexample :
    analyze_profile out500 "alice" 60 = Except.error
      (SdkError.APIError "API returned status code 500") ∧
    mentions "API returned status code 500" "boom" = false := by
  exact ⟨rfl, by decide⟩

/-- C4 as amended: on a non-200, non-429 response, both functions raise
`APIError`; `check_username_history`'s message contains the status code and
the body text, while `analyze_profile`'s message contains only the status
code. -/
theorem C4_non200_api_error (outcome : String → TransportOutcome)
    (username : String) (t : Nat) (r : HttpResponse)
    (hout : outcome (lstripAmp username) = TransportOutcome.response r)
    (h200 : r.status ≠ 200) (h429 : r.status ≠ 429) :
    check_username_history outcome username t = Except.error (SdkError.APIError
      ("API returned status code " ++ toString r.status ++ ": " ++ r.text)) ∧
    mentions ("API returned status code " ++ toString r.status ++ ": "
      ++ r.text) (toString r.status) = true ∧
    mentions ("API returned status code " ++ toString r.status ++ ": "
      ++ r.text) r.text = true ∧
    analyze_profile outcome username t = Except.error (SdkError.APIError
      ("API returned status code " ++ toString r.status)) ∧
    mentions ("API returned status code " ++ toString r.status)
      (toString r.status) = true := by
  refine ⟨?_, ?_, ?_, ?_, ?_⟩
  · unfold check_username_history
    rw [hout]
    simp [h200, h429]
  · exact mentions_of_data _ _ "API returned status code ".data
      ((": " ++ r.text).data) (by simp [String.data_append, List.append_assoc])
  · exact mentions_of_data _ _
      (("API returned status code " ++ toString r.status ++ ": ").data) []
      (by simp [String.data_append, List.append_assoc])
  · unfold analyze_profile
    rw [hout]
    simp [h200, h429]
  · exact mentions_of_data _ _ "API returned status code ".data []
      (by simp [String.data_append, List.append_assoc])

/-- Witness for the amended C4 at a concrete 500 response. -/
theorem C4_witness :
    check_username_history out500 "alice" 30 = Except.error
      (SdkError.APIError "API returned status code 500: boom") :=
  (C4_non200_api_error out500 "alice" 30 ⟨500, "boom", PyVal.dict []⟩
    rfl (by decide) (by decide)).1

/-- C5 counterexample: `lstrip('@')` strips every leading `@`, not exactly
one.  Against an echoing transport, `"@@alice"` is sent as `"alice"`, not as
the `"@alice"` that a single strip would produce. -/
theorem C5_counterexample :
    check_username_history echoOutcome "@@alice" 30 =
      Except.ok (PyVal.str "alice") ∧
    analyze_profile echoOutcome "@@alice" 60 = Except.ok (PyVal.str "alice") ∧
    ("alice" : String) ≠ "@alice" := by
  exact ⟨rfl, rfl, by decide⟩

/-- C5 as amended: both functions send `lstripAmp username`, which removes
every leading `@` (the input is some run of `@`s followed by the sent name,
and the sent name does not start with `@`), and a username with no leading
`@` is sent unchanged. -/
theorem C5_strip_all_leading_at (outcome : String → TransportOutcome)
    (username : String) (t : Nat) :
    (∃ k, username.data =
      List.replicate k '@' ++ (lstripAmp username).data) ∧
    (lstripAmp username).data.head? ≠ some '@' ∧
    (username.data.head? ≠ some '@' → lstripAmp username = username) ∧
    check_username_history outcome username t =
      check_username_history outcome (lstripAmp username) t ∧
    analyze_profile outcome username t =
      analyze_profile outcome (lstripAmp username) t := by
  refine ⟨replicate_dropWhile_at username.data, head?_dropWhile_at username.data,
    lstripAmp_eq_of_no_at username, ?_, ?_⟩
  · unfold check_username_history
    rw [lstripAmp_idem]
  · unfold analyze_profile
    rw [lstripAmp_idem]

/-- Witness for the amended C5: an `@`-free username passes through
unchanged. -/
theorem C5_witness : lstripAmp "alice" = "alice" :=
  (C5_strip_all_leading_at echoOutcome "alice" 30).2.2.1 (by decide)

/-- C6 counterexample: `analyze_profile` has no `Timeout`-specific handler;
a timeout surfaces as the generic `"Request failed: ..."` base error, whose
message does not name the 60-second timeout that was used. -/
theorem C6_counterexample :
    analyze_profile outTimeout "alice" 60 = Except.error
      (SdkError.MoniBagsException "Request failed: timed out") ∧
    mentions "Request failed: timed out" "60" = false := by
  exact ⟨rfl, by decide⟩

/-- C6 as amended: on a network timeout both functions fail with the base
`MoniBagsException`; `check_username_history`'s message names the timeout
value in seconds, while `analyze_profile`'s message only wraps the
underlying cause. -/
theorem C6_timeout_generic_error (outcome : String → TransportOutcome)
    (username : String) (t : Nat) (m : String)
    (hout : outcome (lstripAmp username) = TransportOutcome.timeout m) :
    check_username_history outcome username t = Except.error
      (SdkError.MoniBagsException
        ("Request timed out after " ++ toString t ++ " seconds")) ∧
    mentions ("Request timed out after " ++ toString t ++ " seconds")
      (toString t) = true ∧
    analyze_profile outcome username t = Except.error
      (SdkError.MoniBagsException ("Request failed: " ++ m)) := by
  refine ⟨?_, ?_, ?_⟩
  · unfold check_username_history
    rw [hout]
  · exact mentions_of_data _ _ "Request timed out after ".data
      " seconds".data (by simp [String.data_append, List.append_assoc])
  · unfold analyze_profile
    rw [hout]

/-- Witness for the amended C6 at an always-timing-out transport. -/
theorem C6_witness :
    check_username_history outTimeout "alice" 30 = Except.error
      (SdkError.MoniBagsException "Request timed out after 30 seconds") :=
  (C6_timeout_generic_error outTimeout "alice" 30 "timed out" rfl).1

/-- C7: `get_rate_limit_status` is a total function of the request outcome —
it never raises.  On a 200 response it returns the parsed body; on any other
outcome (non-200 status, network failure, or any other exception) the result
is a mapping carrying an `error` key. -/
theorem C7_rate_limit_status_total (outcome : Except String HttpResponse) :
    (∃ r, outcome = Except.ok r ∧ r.status = 200 ∧
      get_rate_limit_status outcome = r.jsonBody) ∨
    (PyVal.get? (get_rate_limit_status outcome) "error").isSome = true := by
  cases outcome with
  | error e => right; rfl
  | ok r =>
    by_cases h : r.status = 200
    · left
      exact ⟨r, rfl, h, by simp [get_rate_limit_status, h]⟩
    · right
      have hgot : get_rate_limit_status (Except.ok r) =
          PyVal.dict [("error", PyVal.str "Failed to get rate limit status")] := by
        simp [get_rate_limit_status, h]
      rw [hgot]
      rfl

/-- C8: a format other than `json` and `csv` makes `export_results` raise
the unsupported-format `ValueError` before opening any file, so no write is
performed (no `ExportFile` value exists). -/
theorem C8_unsupported_format (results : List (List (String × PyVal)))
    (fn fmt : String) (hj : fmt ≠ "json") (hc : fmt ≠ "csv") :
    export_results results fn fmt =
      Except.error ("Unsupported format: " ++ fmt) := by
  unfold export_results
  rw [if_neg hj, if_neg hc]

/-- Witness for C8 at format `"xml"`. -/
theorem C8_witness :
    export_results [] "out.xml" "xml" =
      Except.error "Unsupported format: xml" :=
  C8_unsupported_format [] "out.xml" "xml" (by decide) (by decide)

/-- C9: CSV export writes a row only for results whose `success` is truthy
(failures are omitted); an empty results list produces a completely empty
file with no header row; JSON export serializes every result, failures
included. -/
theorem C9_csv_success_only (results : List (List (String × PyVal)))
    (fn : String) :
    export_results [] fn "csv" = Except.ok ⟨fn, ExportContent.csv []⟩ ∧
    (results ≠ [] → export_results results fn "csv" = Except.ok ⟨fn,
      ExportContent.csv (csvFieldnames ::
        (results.filter (fun r => truthy (dget r "success" PyVal.none))).map
          csvRowOf)⟩) ∧
    export_results results fn "json" =
      Except.ok ⟨fn, ExportContent.json results⟩ := by
  refine ⟨rfl, ?_, rfl⟩
  intro hne
  unfold export_results
  rw [if_neg (by decide), if_pos rfl]
  unfold csvLines
  rw [if_neg (by simpa using hne),
    filterMap_if_eq_filter_map (fun r => truthy (dget r "success" PyVal.none))
      csvRowOf results]

/-- Witness for C9: of one successful and one failed result, only the
successful one gets a CSV row after the header. -/
theorem C9_witness :
    export_results [[("success", PyVal.bool true)],
        [("success", PyVal.bool false)]] "f" "csv" =
      Except.ok ⟨"f", ExportContent.csv
        [csvFieldnames, csvRowOf [("success", PyVal.bool true)]]⟩ :=
  (C9_csv_success_only [[("success", PyVal.bool true)],
    [("success", PyVal.bool false)]] "f").2.1 (List.cons_ne_nil _ _)

/-- C10: a result with truthy `success` but no `data` key does not make
`format_result` fail: the data defaults to an empty mapping and the output
is exactly the separator, `Username: @unknown`, the changes-detected status
line, and the separator — in particular it contains `Username: @unknown`
and `CHANGES DETECTED`. -/
theorem C10_format_result_no_data (result : List (String × PyVal))
    (hs : truthy (dget result "success" PyVal.none) = true)
    (hd : result.find? (fun p => p.1 == "data") = Option.none) :
    format_result result = String.intercalate "\n"
      [eqBar, "Username: @unknown", "Status: CHANGES DETECTED ⚠️", eqBar] ∧
    mentions (format_result result) "Username: @unknown" = true ∧
    mentions (format_result result) "CHANGES DETECTED" = true := by
  have hdg : dget result "data" (PyVal.dict []) = PyVal.dict [] := by
    unfold dget
    rw [hd]
  have heq : format_result result = String.intercalate "\n"
      [eqBar, "Username: @unknown", "Status: CHANGES DETECTED ⚠️", eqBar] := by
    unfold format_result
    rw [hs, hdg]
    rfl
  refine ⟨heq, ?_, ?_⟩
  · rw [heq]
    decide
  · rw [heq]
    decide

/-- Witness for C10 at the result `{'success': True}`. -/
theorem C10_witness :
    format_result [("success", PyVal.bool true)] = String.intercalate "\n"
      [eqBar, "Username: @unknown", "Status: CHANGES DETECTED ⚠️", eqBar] :=
  (C10_format_result_no_data [("success", PyVal.bool true)] rfl rfl).1
